import Mathlib

/-! The fixed-rate publish / call / broadcast loop of `talker.cpp`.

A shallow embedding of `main` from `src/talker.cpp`.  The middleware calls are
modelled as events appended to a trace; what the middleware hands back
(`ros::ok()`, the outcome of `client.call`, `ros::Time::now()`) is read from an
environment, indexed by the number of the loop pass that asks.  The counter
`count` is a C++ `int`, modelled as an integer wrapped to 32 bits after each
increment.
-/

namespace Talker

/-! ## Data model -/

/-- The numeric expressions that occur as arguments of the transform:
integer literals (`10`, `0`, `0.0`) and `M_PI/d`. -/
inductive Scalar where
  | lit (v : Int)
  | piDiv (d : Nat)
  deriving DecidableEq, Repr

/-- Model of `tf::Vector3`. -/
structure Vector3 where
  x : Scalar
  y : Scalar
  z : Scalar
  deriving DecidableEq, Repr

/-- Model of `tf::Quaternion`, kept as the roll, pitch and yaw that `setRPY` was given
(the quaternion arithmetic is the library's). -/
structure Quaternion where
  roll : Scalar
  pitch : Scalar
  yaw : Scalar
  deriving DecidableEq, Repr

/-- Model of `tf::Transform`. -/
structure Transform where
  origin : Vector3
  rotation : Quaternion
  deriving DecidableEq, Repr

/-- Model of `tf::StampedTransform`. -/
structure StampedTransform where
  transform : Transform
  stamp : Nat
  frameId : String
  childFrameId : String
  deriving DecidableEq, Repr

/-- Severity of a log line (`ROS_INFO*`, `ROS_WARN*`, `ROS_ERROR*`). -/
inductive Level where
  | info
  | warn
  | error
  deriving DecidableEq, Repr

/-- Model of `ros::Publisher`: the topic and queue size given to `advertise`. -/
structure Publisher where
  topic : String
  queueSize : Nat
  deriving DecidableEq, Repr

/-- Model of `ros::ServiceClient`: the service name given to `serviceClient`. -/
structure ServiceClient where
  service : String
  deriving DecidableEq, Repr

/-- Model of `ros::Rate`: the frequency it was constructed with. -/
structure Rate where
  frequency : Int
  deriving DecidableEq, Repr

/-- The externally observable effects of the program, one constructor per middleware call. -/
inductive Event where
  | log (level : Level) (text : String)
  | sendTransform (t : StampedTransform)
  | call (service : String) (input : String)
  | publish (topic : String) (data : String)
  | spinOnce
  | sleep (frequency : Int)
  deriving DecidableEq, Repr

/-- What the middleware returns to the program.  `ok k` is the result of the `ros::ok()`
check that guards pass `k` of the loop, `call k input` is the outcome of `client.call` in
pass `k` (`some output` when the call succeeds, `none` when it fails), `now k` is
`ros::Time::now()` in pass `k`. -/
structure Env where
  ok : Nat → Bool
  call : Nat → String → Option String
  now : Nat → Nat

/-- The state of a run when it is observed: the effects so far, the value of `count`, and
the exit code once `main` has returned (`none` while the loop is still running). -/
structure Run where
  trace : List Event
  count : Int
  exit : Option Int

/-! ## The program -/

/-- Wrap an integer to the range of a 32-bit two's complement `int`. -/
def wrap32 (i : Int) : Int :=
  (i + 2147483648) % 4294967296 - 2147483648

/-- The increment `++count` on an `int`.  Incrementing the largest `int` is undefined in
C++; the model takes the two's complement result. -/
def incr (count : Int) : Int :=
  wrap32 (count + 1)

/-- The literal the stream starts with. -/
def greeting : String :=
  "Hello to everyone in ENPM 808X! "

/-- The contents of `ss` after `ss << "Hello to everyone in ENPM 808X! " << count`. -/
def ssStr (count : Int) : String :=
  greeting ++ toString count

/-- The member `tf::Transform::setOrigin`. -/
def Transform.setOrigin (t : Transform) (v : Vector3) : Transform :=
  { t with origin := v }

/-- The member `tf::Transform::setRotation`. -/
def Transform.setRotation (t : Transform) (q : Quaternion) : Transform :=
  { t with rotation := q }

/-- The member `tf::Quaternion::setRPY`. -/
def Quaternion.setRPY (_q : Quaternion) (roll pitch yaw : Scalar) : Quaternion :=
  { roll := roll, pitch := pitch, yaw := yaw }

/-- A default-constructed `tf::Quaternion`; every field is overwritten before use. -/
def Quaternion.new : Quaternion :=
  { roll := Scalar.lit 0, pitch := Scalar.lit 0, yaw := Scalar.lit 0 }

/-- A default-constructed `tf::Transform`; every field is overwritten before use. -/
def Transform.new : Transform :=
  { origin := { x := Scalar.lit 0, y := Scalar.lit 0, z := Scalar.lit 0 },
    rotation := Quaternion.new }

/-- The log line of the `if (client.call(srv)) ... else ...` statement. -/
def callLog (result : Option String) : Event :=
  match result with
  | some output => Event.log Level.warn ("The response was: " ++ output)
  | none => Event.log Level.error "Did not get a response from the server."

/-- One pass through the body of `while (ros::ok())`, lines 118 to 152: the effects of
pass `k` when `count` has the given value.  The increment of line 153 is in `loop`.
The object `srv` outlives a pass, but its request is overwritten before every call and its
response is read only right after a call that succeeded, so it carries nothing from one
pass to the next. -/
def loopBody (client : ServiceClient) (chatter_pub : Publisher) (loop_rate : Rate)
    (env : Env) (k : Nat) (count : Int) : List Event :=
  let transform := Transform.new.setOrigin
    { x := Scalar.lit 10, y := Scalar.lit 10, z := Scalar.lit 0 }
  let q := Quaternion.new.setRPY (Scalar.lit 0) (Scalar.lit 0) (Scalar.piDiv 3)
  let transform := transform.setRotation q
  let ss := ssStr count
  let input := ss
  let data := ss
  [ Event.log Level.info "Set rotation!",
    Event.sendTransform
      { transform := transform, stamp := env.now k, frameId := "world",
        childFrameId := "talker" },
    Event.call client.service input,
    callLog (env.call k input),
    Event.log Level.info ("Message: " ++ data),
    Event.publish chatter_pub.topic data,
    Event.spinOnce,
    Event.sleep loop_rate.frequency ]

/-- The loop `while (ros::ok()) { ...; ++count; }` observed for at most `fuel` checks of
`ros::ok()`, starting at pass `k` with the effects `trace` already emitted.  When the
check fails the loop is left and `main` returns 0; when the observation ends first, the
run is still in the loop and has no exit code. -/
def loop (client : ServiceClient) (chatter_pub : Publisher) (loop_rate : Rate)
    (env : Env) : Nat → Nat → Run → Run
  | 0, _, r => r
  | fuel + 1, k, r =>
    if env.ok k then
      loop client chatter_pub loop_rate env fuel (k + 1)
        { trace := r.trace ++ loopBody client chatter_pub loop_rate env k r.count,
          count := incr r.count,
          exit := none }
    else
      { r with exit := some 0 }

/-- The effects of `main` before the loop: the two info lines of lines 84 and 107. -/
def startup (argv1 : Int) : List Event :=
  [ Event.log Level.info ("Frequency is: " ++ toString argv1),
    Event.log Level.info "Modified string" ]

/-- The function `main`, observed for at most `fuel` checks of `ros::ok()`.  `argv1` is the
value of `atoi(argv[1])`. -/
def main (argv1 : Int) (env : Env) (fuel : Nat) : Run :=
  let frequency := argv1
  let client : ServiceClient := { service := "change_string" }
  let chatter_pub : Publisher := { topic := "chatter", queueSize := 1000 }
  let loop_rate : Rate := { frequency := frequency }
  let count : Int := 0
  loop client chatter_pub loop_rate env fuel 0
    { trace := startup argv1, count := count, exit := none }

/-! ## Observers of a trace -/

/-- The texts published on `topic`, in order. -/
def publishedOn (topic : String) (tr : List Event) : List String :=
  tr.filterMap fun e =>
    match e with
    | Event.publish t data => if t = topic then some data else none
    | _ => none

/-- The request inputs of the calls of `service`, in order. -/
def callsOn (service : String) (tr : List Event) : List String :=
  tr.filterMap fun e =>
    match e with
    | Event.call s input => if s = service then some input else none
    | _ => none

/-- The log lines of severity `level`, in order. -/
def logsAt (level : Level) (tr : List Event) : List String :=
  tr.filterMap fun e =>
    match e with
    | Event.log l text => if l = level then some text else none
    | _ => none

/-- The transforms that were broadcast, in order. -/
def broadcasts (tr : List Event) : List StampedTransform :=
  tr.filterMap fun e =>
    match e with
    | Event.sendTransform t => some t
    | _ => none

/-- The effects emitted during pass `n` of the loop: what the run observed through check
`n + 1` has emitted beyond the run observed through check `n`. -/
def passEvents (argv1 : Int) (env : Env) (n : Nat) : List Event :=
  (main argv1 env (n + 1)).trace.drop (main argv1 env n).trace.length

/-- The handles `main` creates before the loop, and the pass `k` of its loop. -/
def mainBody (argv1 : Int) (env : Env) (k : Nat) (count : Int) : List Event :=
  loopBody { service := "change_string" } { topic := "chatter", queueSize := 1000 }
    { frequency := argv1 } env k count

/-- An environment that never shuts down and in which every call fails. -/
def unreachableEnv : Env :=
  { ok := fun _ => true, call := fun _ _ => none, now := fun k => k }

/-- An environment that never shuts down and in which every call is answered. -/
def echoEnv : Env :=
  { ok := fun _ => true, call := fun _ input => some (input ++ "!"), now := fun k => 2 * k }

/-- An environment that shuts down at the check of pass `n`, and forever reports running
afterwards; calls fail in even passes and succeed in odd ones. -/
def stopAt (n : Nat) : Env :=
  { ok := fun k => decide (k ≠ n),
    call := fun k input => if k % 2 = 0 then none else some input,
    now := fun k => k }

/-! ## The loop, pass by pass -/

theorem wrap32_incr (i : Int) : incr (wrap32 i) = wrap32 (i + 1) := by
  unfold incr wrap32
  omega

theorem wrap32_of_lt (n : Nat) (h : n < 2147483648) : wrap32 (n : Int) = (n : Int) := by
  unfold wrap32
  omega

theorem loop_zero (c : ServiceClient) (p : Publisher) (l : Rate) (env : Env) (k : Nat)
    (r : Run) : loop c p l env 0 k r = r := rfl

theorem loop_succ_ok (c : ServiceClient) (p : Publisher) (l : Rate) (env : Env)
    (fuel k : Nat) (r : Run) (h : env.ok k = true) :
    loop c p l env (fuel + 1) k r =
      loop c p l env fuel (k + 1)
        { trace := r.trace ++ loopBody c p l env k r.count, count := incr r.count,
          exit := none } := by
  simp [loop, h]

theorem loop_succ_stop (c : ServiceClient) (p : Publisher) (l : Rate) (env : Env)
    (fuel k : Nat) (r : Run) (h : env.ok k = false) :
    loop c p l env (fuel + 1) k r = { r with exit := some 0 } := by
  simp [loop, h]

theorem loop_add (c : ServiceClient) (p : Publisher) (l : Rate) (env : Env) (b : Nat) :
    ∀ (a k : Nat) (r : Run), (∀ i, i < a → env.ok (k + i) = true) →
      loop c p l env (a + b) k r = loop c p l env b (k + a) (loop c p l env a k r) := by
  intro a
  induction a with
  | zero => intro k r _; simp [loop_zero]
  | succ a ih =>
    intro k r h
    have h0 : env.ok k = true := by simpa using h 0 (Nat.succ_pos a)
    have hs : ∀ i, i < a → env.ok (k + 1 + i) = true := by
      intro i hi
      have := h (i + 1) (Nat.succ_lt_succ hi)
      rwa [show k + 1 + i = k + (i + 1) by omega]
    rw [show a + 1 + b = (a + b) + 1 by omega, loop_succ_ok c p l env _ k r h0,
      loop_succ_ok c p l env _ k r h0, ih (k + 1) _ hs,
      show k + 1 + a = k + (a + 1) by omega]

theorem main_zero (argv1 : Int) (env : Env) :
    main argv1 env 0 = { trace := startup argv1, count := 0, exit := none } := rfl

theorem main_add (argv1 : Int) (env : Env) (a b : Nat)
    (h : ∀ i, i < a → env.ok i = true) :
    main argv1 env (a + b) =
      loop { service := "change_string" } { topic := "chatter", queueSize := 1000 }
        { frequency := argv1 } env b a (main argv1 env a) := by
  have := loop_add { service := "change_string" } { topic := "chatter", queueSize := 1000 }
    { frequency := argv1 } env b a 0
    { trace := startup argv1, count := 0, exit := none } (by simpa using h)
  simpa [main] using this

/-- The run after `n` passes whose checks all reported running. -/
theorem main_running (argv1 : Int) (env : Env) :
    ∀ n : Nat, (∀ i, i < n → env.ok i = true) →
      main argv1 env n =
        { trace := startup argv1 ++
            (List.range n).flatMap (fun i => mainBody argv1 env i (wrap32 i)),
          count := wrap32 n, exit := none } := by
  intro n
  induction n with
  | zero => intro _; simp [main_zero, wrap32]
  | succ n ih =>
    intro h
    have hn : ∀ i, i < n → env.ok i = true := fun i hi => h i (Nat.lt_succ_of_lt hi)
    rw [main_add argv1 env n 1 hn, ih hn, loop_succ_ok _ _ _ _ _ _ _ (h n (Nat.lt_succ_self n)),
      loop_zero]
    simp [List.range_succ, mainBody, wrap32_incr]

/-- The run once the check of pass `n` has reported shutdown. -/
theorem main_stopped (argv1 : Int) (env : Env) (n fuel : Nat)
    (h : ∀ i, i < n → env.ok i = true) (hstop : env.ok n = false) (hfuel : n < fuel) :
    main argv1 env fuel =
      { trace := startup argv1 ++
          (List.range n).flatMap (fun i => mainBody argv1 env i (wrap32 i)),
        count := wrap32 n, exit := some 0 } := by
  obtain ⟨m, rfl⟩ : ∃ m, fuel = n + (m + 1) := ⟨fuel - n - 1, by omega⟩
  rw [main_add argv1 env n (m + 1) h, loop_succ_stop _ _ _ _ _ _ _ hstop, main_running argv1 env n h]

theorem toString_natCast (n : Nat) : toString ((n : Nat) : Int) = toString n := rfl

theorem ssStr_of_lt (n : Nat) (h : n < 2147483648) :
    ssStr (wrap32 (n : Int)) = greeting ++ toString n := by
  rw [wrap32_of_lt n h, ssStr, toString_natCast]

theorem passEvents_eq (argv1 : Int) (env : Env) (n : Nat)
    (h : ∀ i, i ≤ n → env.ok i = true) :
    passEvents argv1 env n = mainBody argv1 env n (wrap32 n) := by
  have h1 : ∀ i, i < n + 1 → env.ok i = true := fun i hi => h i (Nat.le_of_lt_succ hi)
  have h0 : ∀ i, i < n → env.ok i = true := fun i hi => h i (Nat.le_of_lt hi)
  unfold passEvents
  rw [main_running argv1 env (n + 1) h1, main_running argv1 env n h0]
  simp only [List.range_succ, List.flatMap_append, List.flatMap_singleton]
  rw [← List.append_assoc, List.drop_left]

theorem count_running (argv1 : Int) (env : Env) (n : Nat)
    (h : ∀ i, i < n → env.ok i = true) : (main argv1 env n).count = wrap32 n := by
  rw [main_running argv1 env n h]

theorem body_published (argv1 : Int) (env : Env) (k : Nat) (c : Int) :
    publishedOn "chatter" (mainBody argv1 env k c) = [ssStr c] := by
  cases hc : env.call k (ssStr c) <;> simp [mainBody, loopBody, publishedOn, callLog, hc]

theorem body_calls (argv1 : Int) (env : Env) (k : Nat) (c : Int) :
    callsOn "change_string" (mainBody argv1 env k c) = [ssStr c] := by
  cases hc : env.call k (ssStr c) <;> simp [mainBody, loopBody, callsOn, callLog, hc]

theorem published_flatMap (topic : String) (l : List Nat) (f : Nat → List Event) :
    publishedOn topic (l.flatMap f) = l.flatMap (fun i => publishedOn topic (f i)) := by
  unfold publishedOn
  rw [List.filterMap_flatMap]

theorem published_running (argv1 : Int) (env : Env) (n : Nat)
    (h : ∀ i, i < n → env.ok i = true) :
    publishedOn "chatter" (main argv1 env n).trace =
      (List.range n).map (fun i : Nat => ssStr (wrap32 (i : Int))) := by
  rw [main_running argv1 env n h]
  show publishedOn "chatter" (startup argv1 ++ _) = _
  have hs : publishedOn "chatter" (startup argv1) = [] := by simp [publishedOn, startup]
  have happ : ∀ a b : List Event,
      publishedOn "chatter" (a ++ b) = publishedOn "chatter" a ++ publishedOn "chatter" b := by
    intro a b; simp [publishedOn]
  rw [happ, hs, published_flatMap, List.nil_append, List.map_eq_flatMap]
  simp only [body_published]

theorem published_append (topic : String) (a b : List Event) :
    publishedOn topic (a ++ b) = publishedOn topic a ++ publishedOn topic b := by
  simp [publishedOn]

theorem loop_trace_prefix (c : ServiceClient) (p : Publisher) (l : Rate) (env : Env) :
    ∀ (b k : Nat) (r : Run), ∃ t, (loop c p l env b k r).trace = r.trace ++ t := by
  intro b
  induction b with
  | zero => intro k r; exact ⟨[], by simp [loop_zero]⟩
  | succ b ih =>
    intro k r
    cases hk : env.ok k with
    | false => exact ⟨[], by simp [loop_succ_stop c p l env b k r hk]⟩
    | true =>
      obtain ⟨t, ht⟩ := ih (k + 1)
        { trace := r.trace ++ loopBody c p l env k r.count, count := incr r.count,
          exit := none }
      exact ⟨loopBody c p l env k r.count ++ t, by
        rw [loop_succ_ok c p l env b k r hk, ht, List.append_assoc]⟩

theorem main_trace_prefix (argv1 : Int) (env : Env) (a b : Nat)
    (h : ∀ i, i < a → env.ok i = true) :
    ∃ t, (main argv1 env (a + b)).trace = (main argv1 env a).trace ++ t := by
  rw [main_add argv1 env a b h]
  exact loop_trace_prefix _ _ _ env b a _

theorem published_getElem (argv1 : Int) (env : Env) (n fuel : Nat) (hfuel : n < fuel)
    (hok : ∀ i, i ≤ n → env.ok i = true) :
    (publishedOn "chatter" (main argv1 env fuel).trace)[n]? = some (ssStr (wrap32 (n : Int))) := by
  have h1 : ∀ i, i < n + 1 → env.ok i = true := fun i hi => hok i (Nat.le_of_lt_succ hi)
  obtain ⟨b, rfl⟩ : ∃ b, fuel = (n + 1) + b := ⟨fuel - (n + 1), by omega⟩
  obtain ⟨t, ht⟩ := main_trace_prefix argv1 env (n + 1) b h1
  rw [ht, published_append, published_running argv1 env (n + 1) h1]
  rw [List.getElem?_append_left (by simp), List.getElem?_map,
    List.getElem?_range (Nat.lt_succ_self n)]
  rfl

theorem trace_succ (argv1 : Int) (env : Env) (n : Nat)
    (h : ∀ i, i ≤ n → env.ok i = true) :
    (main argv1 env (n + 1)).trace =
      (main argv1 env n).trace ++ mainBody argv1 env n (wrap32 n) := by
  have h1 : ∀ i, i < n + 1 → env.ok i = true := fun i hi => h i (Nat.le_of_lt_succ hi)
  have h0 : ∀ i, i < n → env.ok i = true := fun i hi => h i (Nat.le_of_lt hi)
  rw [main_running argv1 env (n + 1) h1, main_running argv1 env n h0]
  simp only [List.range_succ, List.flatMap_append, List.flatMap_singleton, List.append_assoc]

theorem logsAt_append (level : Level) (a b : List Event) :
    logsAt level (a ++ b) = logsAt level a ++ logsAt level b := by
  simp [logsAt]

theorem errors_running (argv1 : Int) (env : Env) :
    ∀ k : Nat, (∀ i, i < k → env.ok i = true) →
      (∀ i : Nat, i < k → env.call i (ssStr (wrap32 (i : Int))) = none) →
      logsAt Level.error (main argv1 env k).trace =
        List.replicate k "Did not get a response from the server." := by
  intro k
  induction k with
  | zero => intro _ _; simp [main_zero, startup, logsAt]
  | succ k ih =>
    intro hok hfail
    have hok0 : ∀ i, i < k → env.ok i = true := fun i hi => hok i (Nat.lt_succ_of_lt hi)
    have hfail0 : ∀ i : Nat, i < k → env.call i (ssStr (wrap32 (i : Int))) = none :=
      fun i hi => hfail i (Nat.lt_succ_of_lt hi)
    rw [trace_succ argv1 env k (fun i hi => hok i (Nat.lt_succ_of_le hi)), logsAt_append,
      ih hok0 hfail0, List.replicate_succ']
    simp [mainBody, loopBody, logsAt, callLog, hfail k (Nat.lt_succ_self k)]

theorem map_ssStr_of_le (k : Nat) (hk : k ≤ 2147483648) :
    (List.range k).map (fun i : Nat => ssStr (wrap32 (i : Int))) =
      (List.range k).map (fun i : Nat => greeting ++ toString i) := by
  apply List.map_congr_left
  intro i hi
  exact ssStr_of_lt i (Nat.lt_of_lt_of_le (List.mem_range.mp hi) hk)

/-! ## The published text -/

/-- The published text while the counter is in range: for every tick index `n` below 2^31
that the loop reaches, the text published on "chatter" in pass `n` is the greeting followed
by the decimal representation of `n`. -/
theorem published_text_of_tick (argv1 : Int) (env : Env) (n fuel : Nat)
    (hn : n < 2147483648) (hfuel : n < fuel) (hok : ∀ i, i ≤ n → env.ok i = true) :
    (publishedOn "chatter" (main argv1 env fuel).trace)[n]? =
      some ("Hello to everyone in ENPM 808X! " ++ toString n) := by
  rw [published_getElem argv1 env n fuel hfuel hok, ssStr_of_lt n hn]
  rfl

/-- With the frequency argument 1 the first published text carries 0. -/
theorem published_text_of_tick_witness :
    (0 < 2147483648 ∧ 0 < 1 ∧ ∀ i, i ≤ 0 → echoEnv.ok i = true) ∧
      (publishedOn "chatter" (main 1 echoEnv 1).trace)[0]? =
        some "Hello to everyone in ENPM 808X! 0" :=
  ⟨⟨by decide, by decide, fun _ _ => rfl⟩,
    published_text_of_tick 1 echoEnv 0 1 (by decide) (by decide) (fun _ _ => rfl)⟩

/-- C1: the code at the failing input.  In a run that reaches tick index 2^31, the `int`
counter has been incremented past its largest value, and the text published in that pass
carries -2147483648 in the model, not the decimal representation of 2147483648 that the
claim and the comment above `int count = 0` ask for. -/
theorem published_text_of_tick_overflow :
    (publishedOn "chatter" (main 10 unreachableEnv 2147483649).trace)[2147483648]? =
        some "Hello to everyone in ENPM 808X! -2147483648" ∧
      (publishedOn "chatter" (main 10 unreachableEnv 2147483649).trace)[2147483648]? ≠
        some ("Hello to everyone in ENPM 808X! " ++ toString 2147483648) := by
  have h := published_getElem 10 unreachableEnv 2147483648 2147483649 (by decide)
    (fun _ _ => rfl)
  have hv : ssStr (wrap32 ((2147483648 : Nat) : Int)) =
      "Hello to everyone in ENPM 808X! -2147483648" := by decide
  rw [hv] at h
  refine ⟨h, ?_⟩
  rw [h]
  decide

/-- Failing calls while the counter is in range: for every `k`, when the call made in each
of the first `k` passes fails, those passes emit exactly `k` error lines and exactly `k`
publishes on "chatter"; for `k` up to 2^31 the texts carry the counter values
0, 1, ..., k-1 in that order. -/
theorem unreachable_service_ticks (argv1 : Int) (env : Env) (k : Nat)
    (hok : ∀ i, i < k → env.ok i = true)
    (hfail : ∀ i : Nat, i < k → env.call i (ssStr (wrap32 (i : Int))) = none) :
    logsAt Level.error (main argv1 env k).trace =
        List.replicate k "Did not get a response from the server." ∧
      (logsAt Level.error (main argv1 env k).trace).length = k ∧
      (publishedOn "chatter" (main argv1 env k).trace).length = k ∧
      (k ≤ 2147483648 →
        publishedOn "chatter" (main argv1 env k).trace =
          (List.range k).map
            (fun i : Nat => "Hello to everyone in ENPM 808X! " ++ toString i)) := by
  have he := errors_running argv1 env k hok hfail
  have hp := published_running argv1 env k hok
  refine ⟨he, ?_, ?_, ?_⟩
  · rw [he, List.length_replicate]
  · rw [hp, List.length_map, List.length_range]
  · intro hk
    rw [hp, map_ssStr_of_le k hk]
    rfl

/-- Three passes with an unreachable service give three error lines and the publishes
0, 1, 2. -/
theorem unreachable_service_ticks_witness :
    logsAt Level.error (main 1 unreachableEnv 3).trace =
        [ "Did not get a response from the server.",
          "Did not get a response from the server.",
          "Did not get a response from the server." ] ∧
      publishedOn "chatter" (main 1 unreachableEnv 3).trace =
        [ "Hello to everyone in ENPM 808X! 0", "Hello to everyone in ENPM 808X! 1",
          "Hello to everyone in ENPM 808X! 2" ] :=
  have h := unreachable_service_ticks 1 unreachableEnv 3 (fun _ _ => rfl) (fun _ _ => rfl)
  ⟨h.1, h.2.2.2 (by decide)⟩

/-- C3: the code at the failing input.  With the service unreachable throughout and
k = 2^31 + 1, the first k passes do emit k error lines and k publishes on "chatter", but
the texts are not those carrying 0, 1, ..., k-1: the `int` counter has been incremented
past its largest value and the last text carries -2147483648 in the model. -/
theorem unreachable_service_ticks_overflow :
    (logsAt Level.error (main 10 unreachableEnv 2147483649).trace).length = 2147483649 ∧
      (publishedOn "chatter" (main 10 unreachableEnv 2147483649).trace).length =
        2147483649 ∧
      (publishedOn "chatter" (main 10 unreachableEnv 2147483649).trace)[2147483648]? =
        some "Hello to everyone in ENPM 808X! -2147483648" ∧
      publishedOn "chatter" (main 10 unreachableEnv 2147483649).trace ≠
        (List.range 2147483649).map
          (fun i : Nat => "Hello to everyone in ENPM 808X! " ++ toString i) := by
  refine ⟨?_, ?_, ?_, ?_⟩
  · rw [errors_running 10 unreachableEnv 2147483649 (fun _ _ => rfl) (fun _ _ => rfl),
      List.length_replicate]
  · rw [published_running 10 unreachableEnv 2147483649 (fun _ _ => rfl), List.length_map,
      List.length_range]
  · have h := published_getElem 10 unreachableEnv 2147483648 2147483649 (by decide)
      (fun _ _ => rfl)
    have hv : ssStr (wrap32 ((2147483648 : Nat) : Int)) =
        "Hello to everyone in ENPM 808X! -2147483648" := by decide
    rw [hv] at h
    exact h
  intro heq
  have h := published_getElem 10 unreachableEnv 2147483648 2147483649 (by decide)
    (fun _ _ => rfl)
  rw [heq, List.getElem?_map, List.getElem?_range (by decide)] at h
  have hne : ("Hello to everyone in ENPM 808X! " ++ toString 2147483648) ≠
      ssStr (wrap32 ((2147483648 : Nat) : Int)) := by decide
  exact hne (Option.some.inj h)

/-! ## The counter -/

/-- The counter while it is in range: for every tick index `n` with `n + 1` below 2^31 that
the loop reaches, the counter used in pass `n` is `n`, it is non-negative, and the counter
used in pass `n + 1` is greater by exactly one. -/
theorem counter_increasing (argv1 : Int) (env : Env) (n : Nat)
    (hn : n + 1 < 2147483648) (hok : ∀ i, i ≤ n → env.ok i = true) :
    (main argv1 env n).count = n ∧ 0 ≤ (main argv1 env n).count ∧
      (main argv1 env n).count < (main argv1 env (n + 1)).count ∧
      (main argv1 env (n + 1)).count = (main argv1 env n).count + 1 := by
  have h1 : ∀ i, i < n + 1 → env.ok i = true := fun i hi => hok i (Nat.le_of_lt_succ hi)
  have h0 : ∀ i, i < n → env.ok i = true := fun i hi => hok i (Nat.le_of_lt hi)
  rw [count_running argv1 env (n + 1) h1, count_running argv1 env n h0,
    wrap32_of_lt (n + 1) hn, wrap32_of_lt n (by omega)]
  push_cast
  omega

/-- The counter used in passes 4 and 5. -/
theorem counter_increasing_witness :
    (main 10 echoEnv 4).count = (4 : Nat) ∧ 0 ≤ (main 10 echoEnv 4).count ∧
      (main 10 echoEnv 4).count < (main 10 echoEnv (4 + 1)).count ∧
      (main 10 echoEnv (4 + 1)).count = (main 10 echoEnv 4).count + 1 :=
  counter_increasing 10 echoEnv 4 (by decide) (fun _ _ => rfl)

/-- C9: the code at the failing input.  In a run that reaches tick index 2^31, the counter
used in pass 2^31 - 1 is 2147483647, the largest `int`, and `++count` overflows: in the
model the counter used in the next pass is -2147483648, which is negative and smaller,
where the claim and the comment above `int count = 0` ask for a count of the messages
sent. -/
theorem counter_overflow :
    (main 10 unreachableEnv 2147483647).count = 2147483647 ∧
      (main 10 unreachableEnv 2147483648).count = -2147483648 ∧
      ¬ (0 ≤ (main 10 unreachableEnv 2147483648).count) ∧
      ¬ ((main 10 unreachableEnv 2147483647).count <
          (main 10 unreachableEnv 2147483648).count) := by
  have ha : (main 10 unreachableEnv 2147483647).count = 2147483647 := by
    rw [count_running 10 unreachableEnv 2147483647 (fun _ _ => rfl)]
    decide
  have hb : (main 10 unreachableEnv 2147483648).count = -2147483648 := by
    rw [count_running 10 unreachableEnv 2147483648 (fun _ _ => rfl)]
    decide
  rw [ha, hb]
  decide

/-! ## One pass of the loop -/

/-- C2: in every pass the loop reaches, whatever the outcome of the service call, there is
exactly one publish, it is on "chatter", and its text is the text that was placed in the
request of that pass. -/
theorem publish_unconditional (argv1 : Int) (env : Env) (n : Nat)
    (hok : ∀ i, i ≤ n → env.ok i = true) :
    (∀ topic, publishedOn topic (passEvents argv1 env n) =
        if topic = "chatter" then [ssStr (main argv1 env n).count] else []) ∧
      publishedOn "chatter" (passEvents argv1 env n) =
        callsOn "change_string" (passEvents argv1 env n) := by
  rw [passEvents_eq argv1 env n hok,
    count_running argv1 env n (fun i hi => hok i (Nat.le_of_lt hi))]
  refine ⟨?_, ?_⟩
  · intro topic
    cases hc : env.call n (ssStr (wrap32 n)) <;>
      by_cases ht : topic = "chatter" <;>
      simp [mainBody, loopBody, publishedOn, callLog, hc, ht, eq_comm]
  · rw [body_published, body_calls]

/-- C2, witness: pass 0 has a failing call and pass 1 an answered one; both publish the
text of their request. -/
theorem publish_unconditional_witness :
    (stopAt 5).call 0 "Hello to everyone in ENPM 808X! 0" = none ∧
      publishedOn "chatter" (passEvents 10 (stopAt 5) 0) =
        callsOn "change_string" (passEvents 10 (stopAt 5) 0) ∧
      publishedOn "chatter" (passEvents 10 (stopAt 5) 1) =
        callsOn "change_string" (passEvents 10 (stopAt 5) 1) :=
  ⟨rfl, (publish_unconditional 10 (stopAt 5) 0 (by decide)).2,
    (publish_unconditional 10 (stopAt 5) 1 (by decide)).2⟩

/-- C6: every pass the loop reaches issues exactly one service call, on "change_string",
whether it succeeds or fails, and its request input is the greeting followed by the
current counter value. -/
theorem one_call_per_tick (argv1 : Int) (env : Env) (n : Nat)
    (hok : ∀ i, i ≤ n → env.ok i = true) :
    ∀ service, callsOn service (passEvents argv1 env n) =
      if service = "change_string" then
        ["Hello to everyone in ENPM 808X! " ++ toString (main argv1 env n).count]
      else [] := by
  intro service
  rw [passEvents_eq argv1 env n hok]
  show callsOn service (mainBody argv1 env n (wrap32 n)) =
    if service = "change_string" then [ssStr (main argv1 env n).count] else []
  rw [count_running argv1 env n (fun i hi => hok i (Nat.le_of_lt hi))]
  cases hc : env.call n (ssStr (wrap32 n)) <;>
    by_cases ht : service = "change_string" <;>
    simp [mainBody, loopBody, callsOn, callLog, hc, ht, eq_comm]

/-- C6, witness: the single call of pass 2 when every call fails. -/
theorem one_call_per_tick_witness :
    callsOn "change_string" (passEvents 10 unreachableEnv 2) =
      ["Hello to everyone in ENPM 808X! " ++ toString (main 10 unreachableEnv 2).count] :=
  one_call_per_tick 10 unreachableEnv 2 (fun _ _ => rfl) "change_string"

/-- C10: in every pass the loop reaches, a successful call gives exactly one warning line,
which contains the response, and no error line; a failed call gives exactly one error
line, saying that no response was received, and no warning line. -/
theorem call_log_selected (argv1 : Int) (env : Env) (n : Nat)
    (hok : ∀ i, i ≤ n → env.ok i = true) :
    (logsAt Level.warn (passEvents argv1 env n),
        logsAt Level.error (passEvents argv1 env n)) =
      match env.call n (ssStr (main argv1 env n).count) with
      | some output => (["The response was: " ++ output], [])
      | none => ([], ["Did not get a response from the server."]) := by
  rw [passEvents_eq argv1 env n hok,
    count_running argv1 env n (fun i hi => hok i (Nat.le_of_lt hi))]
  cases hc : env.call n (ssStr (wrap32 n)) <;>
    simp [mainBody, loopBody, logsAt, callLog, hc]

/-- C10, witness: pass 1 of a run whose calls are answered. -/
theorem call_log_selected_witness :
    (logsAt Level.warn (passEvents 10 echoEnv 1),
        logsAt Level.error (passEvents 10 echoEnv 1)) =
      (["The response was: Hello to everyone in ENPM 808X! 1!"], []) :=
  (call_log_selected 10 echoEnv 1 (fun _ _ => rfl)).trans (by decide)

/-- C5: in every pass the loop reaches, whatever the counter and the call outcomes, exactly
one transform is broadcast; it has translation (10, 10, 0), roll 0, pitch 0, yaw pi/3,
parent frame "world" and child frame "talker", and only its stamp comes from the
environment. -/
theorem transform_constant (argv1 : Int) (env : Env) (n : Nat)
    (hok : ∀ i, i ≤ n → env.ok i = true) :
    broadcasts (passEvents argv1 env n) =
      [ { transform :=
            { origin := { x := Scalar.lit 10, y := Scalar.lit 10, z := Scalar.lit 0 },
              rotation :=
                { roll := Scalar.lit 0, pitch := Scalar.lit 0, yaw := Scalar.piDiv 3 } },
          stamp := env.now n, frameId := "world", childFrameId := "talker" } ] := by
  rw [passEvents_eq argv1 env n hok]
  cases hc : env.call n (ssStr (wrap32 n)) <;>
    simp [mainBody, loopBody, broadcasts, callLog, hc, Transform.setOrigin,
      Transform.setRotation, Quaternion.setRPY, Transform.new]

/-- C5, witness: the transform of pass 3, stamped with the time of that pass. -/
theorem transform_constant_witness :
    broadcasts (passEvents 1 echoEnv 3) =
      [ { transform :=
            { origin := { x := Scalar.lit 10, y := Scalar.lit 10, z := Scalar.lit 0 },
              rotation :=
                { roll := Scalar.lit 0, pitch := Scalar.lit 0, yaw := Scalar.piDiv 3 } },
          stamp := echoEnv.now 3, frameId := "world", childFrameId := "talker" } ] :=
  transform_constant 1 echoEnv 3 (fun _ _ => rfl)

/-- C4, as amended: every pass the loop reaches emits, in this order, the info line
"Set rotation!", the broadcast of the transform, the service call, its warning or error
line, the info line with the text, the publish of the text on "chatter", the processing of
pending events and the sleep; the counter is incremented after all of them.  The info line
with the text precedes the publish, and a pass has two info lines. -/
theorem pass_order (argv1 : Int) (env : Env) (n : Nat)
    (hok : ∀ i, i ≤ n → env.ok i = true) :
    passEvents argv1 env n =
        [ Event.log Level.info "Set rotation!",
          Event.sendTransform
            { transform :=
                { origin := { x := Scalar.lit 10, y := Scalar.lit 10, z := Scalar.lit 0 },
                  rotation :=
                    { roll := Scalar.lit 0, pitch := Scalar.lit 0, yaw := Scalar.piDiv 3 } },
              stamp := env.now n, frameId := "world", childFrameId := "talker" },
          Event.call "change_string" (ssStr (main argv1 env n).count),
          callLog (env.call n (ssStr (main argv1 env n).count)),
          Event.log Level.info ("Message: " ++ ssStr (main argv1 env n).count),
          Event.publish "chatter" (ssStr (main argv1 env n).count),
          Event.spinOnce,
          Event.sleep argv1 ] ∧
      (main argv1 env (n + 1)).count = incr (main argv1 env n).count := by
  rw [passEvents_eq argv1 env n hok,
    count_running argv1 env n (fun i hi => hok i (Nat.le_of_lt hi)),
    count_running argv1 env (n + 1) (fun i hi => hok i (Nat.le_of_lt_succ hi)), wrap32_incr]
  exact ⟨rfl, by push_cast; rfl⟩

/-- C4, witness: the order holds in pass 1 of a run whose calls are answered. -/
theorem pass_order_witness :
    passEvents 10 echoEnv 1 =
        [ Event.log Level.info "Set rotation!",
          Event.sendTransform
            { transform :=
                { origin := { x := Scalar.lit 10, y := Scalar.lit 10, z := Scalar.lit 0 },
                  rotation :=
                    { roll := Scalar.lit 0, pitch := Scalar.lit 0, yaw := Scalar.piDiv 3 } },
              stamp := echoEnv.now 1, frameId := "world", childFrameId := "talker" },
          Event.call "change_string" (ssStr (main 10 echoEnv 1).count),
          callLog (echoEnv.call 1 (ssStr (main 10 echoEnv 1).count)),
          Event.log Level.info ("Message: " ++ ssStr (main 10 echoEnv 1).count),
          Event.publish "chatter" (ssStr (main 10 echoEnv 1).count),
          Event.spinOnce,
          Event.sleep 10 ] ∧
      (main 10 echoEnv (1 + 1)).count = incr (main 10 echoEnv 1).count :=
  pass_order 10 echoEnv 1 (fun _ _ => rfl)

/-- C4, as stated, fails in the first pass of a run with frequency 1 and an unreachable
service: the pass starts with the info line "Set rotation!", so it has two info lines, and
the info line with the text comes before the publish, not after it. -/
theorem pass_order_as_stated_fails :
    passEvents 1 unreachableEnv 0 =
        [ Event.log Level.info "Set rotation!",
          Event.sendTransform
            { transform :=
                { origin := { x := Scalar.lit 10, y := Scalar.lit 10, z := Scalar.lit 0 },
                  rotation :=
                    { roll := Scalar.lit 0, pitch := Scalar.lit 0, yaw := Scalar.piDiv 3 } },
              stamp := 0, frameId := "world", childFrameId := "talker" },
          Event.call "change_string" "Hello to everyone in ENPM 808X! 0",
          Event.log Level.error "Did not get a response from the server.",
          Event.log Level.info "Message: Hello to everyone in ENPM 808X! 0",
          Event.publish "chatter" "Hello to everyone in ENPM 808X! 0",
          Event.spinOnce,
          Event.sleep 1 ] ∧
      logsAt Level.info (passEvents 1 unreachableEnv 0) =
        [ "Set rotation!", "Message: Hello to everyone in ENPM 808X! 0" ] ∧
      passEvents 1 unreachableEnv 0 ≠
        [ Event.sendTransform
            { transform :=
                { origin := { x := Scalar.lit 10, y := Scalar.lit 10, z := Scalar.lit 0 },
                  rotation :=
                    { roll := Scalar.lit 0, pitch := Scalar.lit 0, yaw := Scalar.piDiv 3 } },
              stamp := 0, frameId := "world", childFrameId := "talker" },
          Event.call "change_string" "Hello to everyone in ENPM 808X! 0",
          Event.log Level.error "Did not get a response from the server.",
          Event.publish "chatter" "Hello to everyone in ENPM 808X! 0",
          Event.log Level.info "Message: Hello to everyone in ENPM 808X! 0",
          Event.spinOnce,
          Event.sleep 1 ] := by
  decide

/-! ## Shutdown -/

/-- C7: while the checks of `ros::ok()` report running, the program has not returned and
has completed one pass per check, whatever the service calls did; once the check of pass
`n` reports shutdown, the program returns 0 and its effects are those emitted before that
check, whatever later checks would report and however long the run is observed. -/
theorem shutdown_terminal (argv1 : Int) (env : Env) (n : Nat)
    (hok : ∀ i, i < n → env.ok i = true) :
    ((main argv1 env n).exit = none ∧
        (publishedOn "chatter" (main argv1 env n).trace).length = n) ∧
      (env.ok n = false → ∀ fuel, n < fuel →
        (main argv1 env fuel).exit = some 0 ∧
          (main argv1 env fuel).trace = (main argv1 env n).trace ∧
          (main argv1 env fuel).count = (main argv1 env n).count) := by
  refine ⟨⟨?_, ?_⟩, ?_⟩
  · rw [main_running argv1 env n hok]
  · rw [published_running argv1 env n hok, List.length_map, List.length_range]
  · intro hstop fuel hfuel
    rw [main_stopped argv1 env n fuel hok hstop hfuel, main_running argv1 env n hok]
    exact ⟨rfl, rfl, rfl⟩

/-- C7, witness: a run whose third check reports shutdown has not returned after two
checks, and observed for seven checks it has returned 0 with the effects of two passes,
although the later checks would report running again. -/
theorem shutdown_terminal_witness :
    (stopAt 2).ok 3 = true ∧ (main 10 (stopAt 2) 2).exit = none ∧
      (publishedOn "chatter" (main 10 (stopAt 2) 2).trace).length = 2 ∧
      (main 10 (stopAt 2) 7).exit = some 0 ∧
      (main 10 (stopAt 2) 7).trace = (main 10 (stopAt 2) 2).trace :=
  have h := shutdown_terminal 10 (stopAt 2) 2 (by decide)
  ⟨rfl, h.1.1, h.1.2, (h.2 rfl 7 (by decide)).1, (h.2 rfl 7 (by decide)).2.1⟩

/-! ## Determinism of the published texts -/

/-- C8: two runs that make the same number of passes publish the same sequence of texts
on "chatter", whatever their frequency arguments, time stamps and service responses. -/
theorem published_texts_deterministic (argv1 argv2 : Int) (env1 env2 : Env) (n : Nat)
    (hok1 : ∀ i, i < n → env1.ok i = true) (hok2 : ∀ i, i < n → env2.ok i = true) :
    publishedOn "chatter" (main argv1 env1 n).trace =
      publishedOn "chatter" (main argv2 env2 n).trace := by
  rw [published_running argv1 env1 n hok1, published_running argv2 env2 n hok2]

/-- C8, witness: three passes at frequency 1 with answered calls and three passes at
frequency 50 with failing calls and other time stamps publish the same texts. -/
theorem published_texts_deterministic_witness :
    publishedOn "chatter" (main 1 echoEnv 3).trace =
      publishedOn "chatter" (main 50 unreachableEnv 3).trace :=
  published_texts_deterministic 1 50 echoEnv unreachableEnv 3 (fun _ _ => rfl)
    (fun _ _ => rfl)

end Talker
